import Mathlib

/-!
Shallow embedding of `src/elements.py` (passive-tools): the element
classification-and-costing engine.  Numeric values are modelled as exact
rationals (`ℚ`); the float `NaN` no-value marker is modelled as `none` in
`Option ℚ`.  `np.pi` is embedded as the exact rational value of the IEEE-754
double that numpy uses.  Python exceptions are modelled by the `PyErr` type
and `Except` results; the constructor's `try`/`except` blocks catch them
exactly where the source does.
-/

namespace PT

/-- Python exceptions that can arise in `elements.py`, by class. -/
inductive PyErr
  | keyError
  | attributeError
  | typeError
  | notImplementedError
  deriving DecidableEq, Repr

/-- One entry of an element's `issues` list.  The source stores either a plain
string or a `(message, exception)` pair; the missing-attribute entry is the
string `"chybi " + ", ".join(set_of_names)` whose join order over a Python
set is unspecified, so it is kept structurally as the list of names. -/
inductive Issue
  | msg (text : String)
  | failure (text : String) (err : PyErr)
  | missingAttrs (names : List String)
  deriving DecidableEq, Repr

/-- The element classes of `elements.py` (`BaseElement` and its 12 registered
subclasses). -/
inductive Shape
  | base
  | roundTube
  | dampedRoundTube
  | roundTubeJoint
  | flatTube
  | floorFlatTube
  | dampedFlatTube
  | roundElbow
  | flatElbow
  | flatReduction
  | roundReduction
  | flatRoundReduction
  | roundTee
  deriving DecidableEq, Repr

/-- An input row: the eight mandatory fields of the §6 contract are typed
fields ('quantity' and 'insulation_mm' are numbers, the rest strings); the
remaining columns are the extras, each present with a numeric value
(`some q`) or with the float NaN no-value marker (`none`). -/
structure Row where
  system : String
  position : String
  pn : String
  name : String
  spec : String
  quantity : ℚ
  unit : String
  insulation_mm : ℚ
  extras : List (String × Option ℚ)
  deriving DecidableEq, Repr

/-- A Python dict has each key at most once, and the extras of a row are the
keys left over after the eight mandatory fields were popped. -/
def Row.WF (row : Row) : Prop :=
  (row.extras.map Prod.fst).Nodup ∧
    ∀ k ∈ row.extras.map Prod.fst,
      k ∉ ["system", "position", "pn", "name", "spec", "quantity", "unit",
           "insulation_mm"]

instance (row : Row) : Decidable row.WF := by
  unfold Row.WF; infer_instance

/-- `row[k]` on the raw row dict: `KeyError` when the key is absent, else the
stored value (which may be the NaN marker). -/
def rowGet (row : Row) (k : String) : Except PyErr (Option ℚ) :=
  match row.extras.find? (fun p => p.1 == k) with
  | some p => Except.ok p.2
  | none => Except.error PyErr.keyError

/-- The exact rational value of the IEEE-754 double `np.pi`
(`0x400921FB54442D18` = 884279719003555 / 2^48). -/
def npPi : ℚ := 884279719003555 / 281474976710656

/-- The dynamic numeric instance attributes of an element under construction
(`setattr` / `delattr` by name).  Keys are kept unique: `attrSet` replaces. -/
abbrev AttrMap : Type := List (String × ℚ)

/-- Value of an instance attribute, if set. -/
def attrGet (m : AttrMap) (k : String) : Option ℚ :=
  match (List.find? (fun p => p.1 == k) m) with
  | some p => some p.2
  | none => none

/-- `setattr(self, k, v)` for a plain (non-descriptor) attribute. -/
def attrSet (m : AttrMap) (k : String) (v : ℚ) : AttrMap :=
  List.filter (fun p => ! (p.1 == k)) m ++ [(k, v)]

/-- `del self.k` (the source only deletes attributes it has just read). -/
def attrDel (m : AttrMap) (k : String) : AttrMap :=
  List.filter (fun p => ! (p.1 == k)) m

/-- The mutable state of an element during `BaseElement.__init__`: the common
typed fields plus the dynamic attribute dict and the issues list. -/
structure St where
  shape : Shape
  system : String
  position : String
  pn : String
  name : String
  spec : String
  quantity : ℚ
  unit : String
  insulation_mm : ℚ
  attrs : AttrMap
  issues : List Issue
  deriving DecidableEq, Repr

/-- A pricelist: the five named unit rates (class attributes of the source's
`Pricelist`) plus the `__getitem__` lookup keyed by the element under
construction; a lookup that raises `KeyError` is `none`. -/
structure Pricelist where
  sheet_metal_m2 : ℚ
  flange : ℚ
  pipe_metal_m2 : ℚ
  pipe_fitting_metal_m2 : ℚ
  pipe_fitting_piece : ℚ
  lookup : St → Option (ℚ × String)

/-- The source's concrete `Pricelist`: the five rates of `elements.py` and a
`__getitem__` that raises `KeyError` for every key. -/
def concretePricelist : Pricelist :=
  { sheet_metal_m2 := 350
    flange := 220
    pipe_metal_m2 := 585
    pipe_fitting_metal_m2 := 814
    pipe_fitting_piece := 105
    lookup := fun _ => none }

/-- The character class `[a-zA-Z\d,]` of the key part of a spec token.  `\d`
is modelled as the ASCII digits: the inputs are cp1250-decoded text, which
contains no other Unicode decimal-digit characters. -/
def keyChar (c : Char) : Bool := c.isAlpha || c.isDigit || c == ','

/-- `float(v)` of a run of decimal digits. -/
def digitsVal (ds : List Char) : ℚ :=
  ((ds.foldl (fun n c => 10 * n + (c.toNat - '0'.toNat)) 0 : ℕ) : ℚ)

/-- `re.findall(r'([a-zA-Z\d,]+)=(\d+)', spec)`.  The scan moves left to
right; at a given start the key class is greedy and, since `=` is not a key
character, a match needs the maximal key run to be followed by `=` and at
least one digit (the digit run again greedy); on success the pair is emitted
and scanning resumes after the digits, otherwise the start advances one
character. -/
def pyFindAllF : ℕ → List Char → List (List Char × List Char)
  | 0, _ => []
  | _ + 1, [] => []
  | fuel + 1, c :: cs =>
    if keyChar c then
      let run := (c :: cs).takeWhile keyChar
      match (c :: cs).dropWhile keyChar with
      | '=' :: r2 =>
        let ds := r2.takeWhile Char.isDigit
        if ds.isEmpty then pyFindAllF fuel cs
        else (run, ds) :: pyFindAllF fuel (r2.dropWhile Char.isDigit)
      | _ => pyFindAllF fuel cs
    else pyFindAllF fuel cs

/-- The scanner at full fuel.  Every step of `pyFindAllF` consumes at least
one character of the list and passes a suffix of the tail on, so a fuel equal
to the length is never exhausted. -/
def pyFindAll (l : List Char) : List (List Char × List Char) :=
  pyFindAllF l.length l

/-- The token list of a spec string: each regex match as
(key group, `float` of the digit group). -/
def specTokens (s : String) : List (String × ℚ) :=
  (pyFindAll s.data).map (fun p => (String.mk p.1, digitsVal p.2))

/-- Helper for `k.split(",")`, carrying the reversed current segment. -/
def splitCommaAux : List Char → List Char → List String
  | acc, [] => [String.mk acc.reverse]
  | acc, c :: cs =>
    if c == ',' then String.mk acc.reverse :: splitCommaAux [] cs
    else splitCommaAux (c :: acc) cs

/-- Python's `k.split(",")`: segments between commas, empty segments kept
(`"".split(",") == [""]`, `",A".split(",") == ["", "A"]`). -/
def splitComma (s : String) : List String := splitCommaAux [] s.data

/-- Value of a key in the parsed spec dict, if present. -/
def specGet (m : List (String × ℚ)) (k : String) : Option ℚ :=
  match List.find? (fun p => p.1 == k) m with
  | some p => some p.2
  | none => none

/-- Insert one binding into the dict being built (later bindings win). -/
def specSet (m : List (String × ℚ)) (k : String) (v : ℚ) : List (String × ℚ) :=
  List.filter (fun p => ! (p.1 == k)) m ++ [(k, v)]

/-- `spec[k]` on the parsed dict: `KeyError` when absent. -/
def specGetE (m : List (String × ℚ)) (k : String) : Except PyErr ℚ :=
  match specGet m k with
  | some v => Except.ok v
  | none => Except.error PyErr.keyError

/-- `spec.get(k, d)` on the parsed dict. -/
def specGetD (m : List (String × ℚ)) (k : String) (d : ℚ) : ℚ :=
  (specGet m k).getD d

/-- `parse_spec_str`: build the dict
`{k_: float(v) for k, v in matches for k_ in k.split(",")}` — every comma
segment of a token's key is bound to that token's value, later tokens
overwriting earlier ones. -/
def parse_spec_str (s : String) : List (String × ℚ) :=
  (specTokens s).foldl
    (fun m t => (splitComma t.1).foldl (fun m' k => specSet m' k t.2) m) []

/-- Does `a` start with `n` (character lists)? -/
def startsWithL : List Char → List Char → Bool
  | [], _ => true
  | _ :: _, [] => false
  | x :: xs, y :: ys => x == y && startsWithL xs ys

/-- Helper for Python's substring test: does `n` occur inside `l`? -/
def subOccurs (n : List Char) : List Char → Bool
  | [] => n.isEmpty
  | h :: t => startsWithL n (h :: t) || subOccurs n t

/-- Python's `needle in hay` on strings: contiguous substring test (the empty
string is a substring of everything). -/
def pyStrIn (needle hay : String) : Bool := subOccurs needle.data hay.data

/-- `re.search(r'\d+/\d+/(\d+)', spec)` followed by `int(match.group(1))`:
first position where maximal-digit-run `/` digit-run `/` digit-run matches;
returns the third run's integer value, `none` when there is no match. -/
def acousticSearch (l : List Char) : Option ℕ :=
  match l with
  | [] => none
  | c :: cs =>
    if c.isDigit then
      match (c :: cs).dropWhile Char.isDigit with
      | '/' :: r2 =>
        if (r2.takeWhile Char.isDigit).isEmpty then acousticSearch cs
        else
          match r2.dropWhile Char.isDigit with
          | '/' :: r3 =>
            let d3 := r3.takeWhile Char.isDigit
            if d3.isEmpty then acousticSearch cs
            else some (d3.foldl (fun n ch => 10 * n + (ch.toNat - '0'.toNat)) 0)
          | _ => acousticSearch cs
      | _ => acousticSearch cs
    else acousticSearch cs

/-- `int(q)` on a float: truncation toward zero. -/
def pyTrunc (q : ℚ) : ℤ := Int.tdiv q.num (q.den : ℤ)

/-- `EXTRA_ATTRS` of each element class. -/
def EXTRA_ATTRS : Shape → List String
  | .base => []
  | .roundTube => ["diameter_mm", "surface_m2"]
  | .dampedRoundTube => ["width_mm", "height_mm", "length_mm", "surface_m2"]
  | .roundTubeJoint => ["diameter_mm", "surface_m2"]
  | .flatTube => ["width_mm", "height_mm", "length_mm", "duct_count", "surface_m2"]
  | .floorFlatTube => ["width_mm", "height_mm", "surface_m2"]
  | .dampedFlatTube => ["width_mm", "height_mm", "length_mm", "surface_m2"]
  | .roundElbow => ["diameter_mm", "surface_m2"]
  | .flatElbow => ["width_mm", "height_mm", "surface_m2"]
  | .flatReduction => ["length_mm", "surface_m2"]
  | .roundReduction => ["length_mm", "surface_m2"]
  | .flatRoundReduction => ["diameter_mm", "width_mm", "height_mm", "length_mm", "surface_m2"]
  | .roundTee => ["diameter_mm", "length_mm", "surface_m2"]

/-- `UNIT` of each element class (`None` on `BaseElement`). -/
def UNIT : Shape → Option String
  | .base => none
  | .roundTube => some "m"
  | .dampedRoundTube => some "ks"
  | .roundTubeJoint => some "ks"
  | .flatTube => some "m"
  | .floorFlatTube => some "m"
  | .dampedFlatTube => some "ks"
  | .roundElbow => some "ks"
  | .flatElbow => some "ks"
  | .flatReduction => some "ks"
  | .roundReduction => some "ks"
  | .flatRoundReduction => some "ks"
  | .roundTee => some "ks"

/-- `len(cls.mro())`: `BaseElement` has `[cls, object]`; direct subclasses add
one; `FloorFlatTube` and `DampedFlatTube` derive via `FlatTube`. -/
def mroLen : Shape → ℕ
  | .base => 2
  | .floorFlatTube => 4
  | .dampedFlatTube => 4
  | _ => 3

/-- `REGISTERED_ELEMENTS` in registration (class definition) order;
`__init_subclass__` appends every subclass as it is created. -/
def registeredElements : List Shape :=
  [.roundTube, .dampedRoundTube, .roundTubeJoint, .flatTube, .floorFlatTube,
   .dampedFlatTube, .roundElbow, .flatElbow, .flatReduction, .roundReduction,
   .flatRoundReduction, .roundTee]

/-- The factory's sort key `-len(cls.mro())`. -/
def sortKey (sh : Shape) : ℤ := -(mroLen sh : ℤ)

/-- Insert into an ascending-by-key list after all entries of smaller or equal
key (so that, like Python's stable `sorted`, ties keep encounter order). -/
def insertAsc (x : Shape) : List Shape → List Shape
  | [] => [x]
  | y :: ys => if sortKey y ≤ sortKey x then y :: insertAsc x ys else x :: y :: ys

/-- Python's `sorted(..., key=lambda x: -len(x.mro()))`: stable, ascending. -/
def stableSortShapes (l : List Shape) : List Shape :=
  l.foldl (fun acc x => insertAsc x acc) []

/-- `ElementFactory._sorted_classes`: registered subclasses (with
`BaseElement` filtered out) sorted most-specific-first. -/
def sortedClasses : List Shape :=
  stableSortShapes (registeredElements.filter (fun sh => ¬ sh == Shape.base))

/-- Tuple membership test of `FloorFlatTube.can_parse`:
`(row['width_mm'], row['height_mm']) in [(160, 40), (200, 50)]`; a NaN value
compares unequal to everything. -/
def dimPairIn (w h : Option ℚ) : Bool :=
  match w, h with
  | some x, some y => (x == 160 && y == 40) || (x == 200 && y == 50)
  | _, _ => false

/-- `can_parse` of each element class.  `FloorFlatTube.can_parse` reads
`row['width_mm']` and `row['height_mm']` directly and so can raise `KeyError`;
`RoundTubeJoint.can_parse` is the substring test
`row['name'] in 'Vsuvka do potrubí'`. -/
def can_parse (sh : Shape) (row : Row) : Except PyErr Bool :=
  match sh with
  | .base => Except.ok false
  | .roundTube => Except.ok (row.name == "Roura")
  | .dampedRoundTube => Except.ok (row.name == "Tlumič hluku, kulatý")
  | .roundTubeJoint => Except.ok (pyStrIn row.name "Vsuvka do potrubí")
  | .flatTube => Except.ok (row.name == "Potrubí")
  | .floorFlatTube =>
    if row.name == "Potrubí" then do
      let w ← rowGet row "width_mm"
      let h ← rowGet row "height_mm"
      Except.ok (dimPairIn w h)
    else Except.ok false
  | .dampedFlatTube => Except.ok (row.name == "Tlumič hluku, buňkový")
  | .roundElbow => Except.ok (row.name == "Koleno" && pyStrIn "D=" row.spec)
  | .flatElbow => Except.ok (row.name == "Koleno" && pyStrIn "A=" row.spec)
  | .flatReduction => Except.ok (row.name == "Redukce" && pyStrIn "A=" row.spec)
  | .roundReduction => Except.ok (row.name == "Redukce" && pyStrIn "D=" row.spec)
  | .flatRoundReduction => Except.ok (row.name == "Redukce obdélník-roura")
  | .roundTee => Except.ok (row.name == "T-kus")

/-- Names always found by `hasattr` on a freshly started instance: the
instance attributes bound by step 1 of `__init__` before the extra-attribute
loop runs. -/
def commonAttrNames : List String :=
  ["issues", "system", "position", "pn", "name", "spec", "quantity", "unit",
   "insulation_mm"]

/-- Class-level names visible through `hasattr` on every element class
(class variables and methods; dunder names are omitted — no input column is
named like one). -/
def classAttrNames : List String :=
  ["EXTRA_ATTRS", "UNIT", "REGISTERED_ELEMENTS", "can_parse", "to_dict",
   "_parse_spec", "_calculate_insulation_mm2", "_calculate_price"]

/-- The only `property` descriptors in the class hierarchy:
`RoundTube.length_mm` and `FloorFlatTube.length_mm`. -/
def hasPropName (sh : Shape) (k : String) : Bool :=
  match sh with
  | .roundTube => k == "length_mm"
  | .floorFlatTube => k == "length_mm"
  | _ => false

/-- Value of a property descriptor; both existing properties compute
`1000 * self.quantity`. -/
def propValue (st : St) (k : String) : Option ℚ :=
  if hasPropName st.shape k then some (1000 * st.quantity) else none

/-- `getattr(self, k)` restricted to the numeric attributes: a property
descriptor wins over the instance dict; a miss raises `AttributeError`. -/
def getAttrE (st : St) (k : String) : Except PyErr ℚ :=
  match propValue st k with
  | some v => Except.ok v
  | none =>
    match attrGet st.attrs k with
    | some v => Except.ok v
    | none => Except.error PyErr.attributeError

/-- `getattr(self, k, d)`. -/
def getAttrD (st : St) (k : String) (d : ℚ) : ℚ :=
  match getAttrE st k with
  | Except.ok v => v
  | Except.error _ => d

/-- `hasattr(self, k)` during the extra-attribute loop, over the attribute
map built so far. -/
def hasattrB (sh : Shape) (m : AttrMap) (k : String) : Bool :=
  commonAttrNames.contains k || classAttrNames.contains k || hasPropName sh k
    || (attrGet m k).isSome

/-- `FlatTube._parse_spec` (also inherited by `DampedFlatTube`, whose
`EXTRA_ATTRS` drop `duct_count`, so the first read may raise): override
quantity with the duct count, delete it, fix the unit to pieces and embed the
length into the spec text.  An exception leaves the mutations made so far in
place, as in Python. -/
def flatTubeHook (st : St) : St × Option PyErr :=
  match getAttrE st "duct_count" with
  | Except.error e => (st, some e)
  | Except.ok dc =>
    let st2 : St :=
      { st with quantity := dc, attrs := attrDel st.attrs "duct_count",
                unit := "ks" }
    match getAttrE st2 "length_mm" with
    | Except.error e => (st2, some e)
    | Except.ok len =>
      ({ st2 with spec := st2.spec ++ " x " ++ toString (pyTrunc len) }, none)

/-- `DampedRoundTube._parse_spec`: ambiguous-diameter issue, width becomes the
diameter, width/height are deleted, and the acoustic thickness is read from
the `d/d/(d)` pattern of the spec text (its failure is caught by the inner
`try`, recording an issue: a failed `re.search` returns `None`, and
`None.group` raises `AttributeError`). -/
def dampedRoundTubeHook (st : St) : St × Option PyErr :=
  match getAttrE st "width_mm" with
  | Except.error e => (st, some e)
  | Except.ok w =>
    match getAttrE st "height_mm" with
    | Except.error e => (st, some e)
    | Except.ok h =>
      let st1 : St :=
        if w ≠ h then
          { st with issues := st.issues ++ [Issue.msg "nejednoznačný průměr"] }
        else st
      let st2 : St :=
        { st1 with attrs := attrDel (attrDel (attrSet st1.attrs "diameter_mm" w)
                                      "width_mm") "height_mm" }
      match acousticSearch st2.spec.data with
      | some n => ({ st2 with attrs := attrSet st2.attrs "acoustic_mm" (n : ℚ) }, none)
      | none =>
        ({ st2 with issues := st2.issues ++
            [Issue.failure "selhalo vyčtení tloušťky akustické izolace"
              PyErr.attributeError] }, none)

/-- `RoundElbow._parse_spec` and `FlatElbow._parse_spec` (identical bodies):
radius and angle from the parsed spec text; a missing key raises `KeyError`
after the earlier assignments have happened. -/
def elbowHook (st : St) : St × Option PyErr :=
  let spec := parse_spec_str st.spec
  match specGetE spec "R" with
  | Except.error e => (st, some e)
  | Except.ok r =>
    let st1 : St := { st with attrs := attrSet st.attrs "radius_mm" r }
    match specGetE spec "a" with
    | Except.error e => (st1, some e)
    | Except.ok a => ({ st1 with attrs := attrSet st1.attrs "angle_deg" a }, none)

/-- `FlatReduction._parse_spec`: bounding-box width/height from the two
declared pairs (`A2`/`B2` default to 0). -/
def flatReductionHook (st : St) : St × Option PyErr :=
  let spec := parse_spec_str st.spec
  match specGetE spec "A" with
  | Except.error e => (st, some e)
  | Except.ok a =>
    let st1 : St :=
      { st with attrs := attrSet st.attrs "width_mm" (max a (specGetD spec "A2" 0)) }
    match specGetE spec "B" with
    | Except.error e => (st1, some e)
    | Except.ok b =>
      ({ st1 with attrs := attrSet st1.attrs "height_mm" (max b (specGetD spec "B2" 0)) },
       none)

/-- `RoundReduction._parse_spec`: the larger declared diameter. -/
def roundReductionHook (st : St) : St × Option PyErr :=
  let spec := parse_spec_str st.spec
  match specGetE spec "D" with
  | Except.error e => (st, some e)
  | Except.ok d =>
    match specGetE spec "D2" with
    | Except.error e => (st, some e)
    | Except.ok d2 =>
      ({ st with attrs := attrSet st.attrs "diameter_mm" (max d d2) }, none)

/-- `RoundTee._parse_spec`: branch diameter, branch length and angle from the
spec text, assigned sequentially. -/
def roundTeeHook (st : St) : St × Option PyErr :=
  let spec := parse_spec_str st.spec
  match specGetE spec "D3" with
  | Except.error e => (st, some e)
  | Except.ok d3 =>
    let st1 : St := { st with attrs := attrSet st.attrs "diameter3_mm" d3 }
    match specGetE spec "L3" with
    | Except.error e => (st1, some e)
    | Except.ok l3 =>
      let st2 : St := { st1 with attrs := attrSet st1.attrs "length3_mm" l3 }
      match specGetE spec "a" with
      | Except.error e => (st2, some e)
      | Except.ok a => ({ st2 with attrs := attrSet st2.attrs "angle_deg" a }, none)

/-- `_parse_spec` dispatch: the base implementation (also `RoundTube`,
`RoundTubeJoint` and `FlatRoundReduction`, which do not override it) is a
no-op; `FloorFlatTube` renames the element. -/
def parseSpecHook (sh : Shape) (st : St) : St × Option PyErr :=
  match sh with
  | .base => (st, none)
  | .roundTube => (st, none)
  | .roundTubeJoint => (st, none)
  | .flatRoundReduction => (st, none)
  | .dampedRoundTube => dampedRoundTubeHook st
  | .flatTube => flatTubeHook st
  | .dampedFlatTube => flatTubeHook st
  | .floorFlatTube => ({ st with name := "Podlahový kanál" }, none)
  | .roundElbow => elbowHook st
  | .flatElbow => elbowHook st
  | .flatReduction => flatReductionHook st
  | .roundReduction => roundReductionHook st
  | .roundTee => roundTeeHook st

/-- `_calculate_insulation_mm2` of each class, reading its numeric attributes
(a missing one raises `AttributeError`); `BaseElement` raises
`NotImplementedError`. -/
def calc_insulation_mm2 (sh : Shape) (st : St) : Except PyErr ℚ :=
  match sh with
  | .base => Except.error PyErr.notImplementedError
  | .roundTube => do
    let d ← getAttrE st "diameter_mm"
    let l ← getAttrE st "length_mm"
    Except.ok (npPi * (d + 2 * st.insulation_mm) * l)
  | .dampedRoundTube => do
    let d ← getAttrE st "diameter_mm"
    let ac ← getAttrE st "acoustic_mm"
    let l ← getAttrE st "length_mm"
    Except.ok (st.quantity * (npPi * (d + 2 * (st.insulation_mm + ac))) * l)
  | .roundTubeJoint => Except.ok 0
  | .flatTube => do
    let w ← getAttrE st "width_mm"
    let h ← getAttrE st "height_mm"
    let l ← getAttrE st "length_mm"
    Except.ok (st.quantity * (2 * (w + h + 4 * st.insulation_mm)) * l)
  | .dampedFlatTube => do
    let w ← getAttrE st "width_mm"
    let h ← getAttrE st "height_mm"
    let l ← getAttrE st "length_mm"
    Except.ok (st.quantity * (2 * (w + h + 4 * st.insulation_mm)) * l)
  | .floorFlatTube => do
    let w ← getAttrE st "width_mm"
    let h ← getAttrE st "height_mm"
    let l ← getAttrE st "length_mm"
    Except.ok (2 * (w + h + 4 * st.insulation_mm) * l)
  | .roundElbow => do
    let a ← getAttrE st "angle_deg"
    let r ← getAttrE st "radius_mm"
    let d ← getAttrE st "diameter_mm"
    Except.ok (st.quantity *
      ((a / 360) * (2 * npPi * (r + d / 2 + st.insulation_mm))) *
      (npPi * (d + 2 * st.insulation_mm)))
  | .flatElbow => do
    let a ← getAttrE st "angle_deg"
    let r ← getAttrE st "radius_mm"
    let w ← getAttrE st "width_mm"
    let h ← getAttrE st "height_mm"
    Except.ok (st.quantity *
      ((a / 360) * (2 * npPi * (r + w + st.insulation_mm))) *
      (2 * (w + h + 4 * st.insulation_mm)))
  | .flatReduction => do
    let w ← getAttrE st "width_mm"
    let h ← getAttrE st "height_mm"
    let l ← getAttrE st "length_mm"
    Except.ok (st.quantity * (2 * (w + h + 4 * st.insulation_mm)) * l)
  | .roundReduction => do
    let d ← getAttrE st "diameter_mm"
    let l ← getAttrE st "length_mm"
    Except.ok (st.quantity * (npPi * (d + 2 * st.insulation_mm)) * l)
  | .flatRoundReduction => do
    let d ← getAttrE st "diameter_mm"
    let w ← getAttrE st "width_mm"
    let h ← getAttrE st "height_mm"
    let l ← getAttrE st "length_mm"
    Except.ok (st.quantity *
      (max (npPi * (d + 2 * st.insulation_mm))
           (2 * (w + h + 4 * st.insulation_mm))) * l)
  | .roundTee => do
    let d ← getAttrE st "diameter_mm"
    let l ← getAttrE st "length_mm"
    let d3 ← getAttrE st "diameter3_mm"
    let l3 ← getAttrE st "length3_mm"
    Except.ok (st.quantity *
      (npPi * (d + 2 * st.insulation_mm) * l +
       npPi * (d3 + 2 * st.insulation_mm) * (l3 - d / 2)))

/-- `BaseElement._calculate_price`: pricelist lookup keyed by the element; a
failed lookup is swallowed by the bare `except` (price NaN, no issue); a unit
mismatch records an issue and yields NaN; otherwise unit price times
quantity. -/
def defaultPrice (pl : Pricelist) (st : St) : St × Except PyErr (Option ℚ) :=
  match pl.lookup st with
  | none => (st, Except.ok none)
  | some (p, u) =>
    if u ≠ st.unit then
      ({ st with issues := st.issues ++ [Issue.msg "neodpovídá jednotka v ceníku"] },
       Except.ok none)
    else (st, Except.ok (some (p * st.quantity)))

/-- `_calculate_price` of each class.  `DampedRoundTube` does not override it
and uses the default.  `DampedFlatTube._calculate_price` evaluates
`BaseElement._calculate_price(pricelist)`: the unbound function gets
`pricelist` as `self` and no `pricelist` argument, so the call raises
`TypeError` before any body runs. -/
def calc_price (sh : Shape) (pl : Pricelist) (st : St) :
    St × Except PyErr (Option ℚ) :=
  match sh with
  | .base => defaultPrice pl st
  | .dampedRoundTube => defaultPrice pl st
  | .dampedFlatTube => (st, Except.error PyErr.typeError)
  | .roundTube =>
    match getAttrE st "surface_m2" with
    | Except.error e => (st, Except.error e)
    | Except.ok s => (st, Except.ok (some (s * pl.pipe_metal_m2)))
  | .roundTubeJoint =>
    match getAttrE st "surface_m2" with
    | Except.error e => (st, Except.error e)
    | Except.ok s => (st, Except.ok (some (s * pl.pipe_metal_m2)))
  | .flatTube =>
    match getAttrE st "surface_m2" with
    | Except.error e => (st, Except.error e)
    | Except.ok s =>
      (st, Except.ok (some (s * pl.sheet_metal_m2 + 2 * st.quantity * pl.flange)))
  | .floorFlatTube =>
    match getAttrE st "surface_m2" with
    | Except.error e => (st, Except.error e)
    | Except.ok s => (st, Except.ok (some (s * pl.sheet_metal_m2)))
  | .roundElbow =>
    match getAttrE st "surface_m2" with
    | Except.error e => (st, Except.error e)
    | Except.ok s =>
      (st, Except.ok (some (s * pl.pipe_fitting_metal_m2 + pl.pipe_fitting_piece)))
  | .flatElbow =>
    match getAttrE st "surface_m2" with
    | Except.error e => (st, Except.error e)
    | Except.ok s => (st, Except.ok (some (s * pl.sheet_metal_m2 + 2 * pl.flange)))
  | .flatReduction =>
    match getAttrE st "surface_m2" with
    | Except.error e => (st, Except.error e)
    | Except.ok s => (st, Except.ok (some (s * pl.sheet_metal_m2 + 2 * pl.flange)))
  | .roundReduction =>
    match getAttrE st "surface_m2" with
    | Except.error e => (st, Except.error e)
    | Except.ok s => (st, Except.ok (some (s * pl.pipe_metal_m2)))
  | .flatRoundReduction =>
    match getAttrE st "surface_m2" with
    | Except.error e => (st, Except.error e)
    | Except.ok s =>
      (st, Except.ok (some (s * max pl.pipe_fitting_metal_m2 pl.sheet_metal_m2 +
        pl.flange + pl.pipe_fitting_piece)))
  | .roundTee =>
    match getAttrE st "surface_m2" with
    | Except.error e => (st, Except.error e)
    | Except.ok s => (st, Except.ok (some (s * pl.pipe_fitting_metal_m2)))

/-- The row's extra columns that carry an actual number (the NaN no-value
markers are dropped: `{k: v for k, v in row.items() if not np.isnan(v)}`). -/
def filteredExtras (row : Row) : AttrMap :=
  row.extras.filterMap (fun p => p.2.map (fun v => (p.1, v)))

/-- `set(EXTRA_ATTRS) - set(row)`: the declared required extras the filtered
row lacks (kept in declaration order; the source renders them joined in a
Python set's iteration order). -/
def missingAttrsOf (sh : Shape) (row : Row) : List String :=
  (EXTRA_ATTRS sh).filter
    (fun a => ! ((filteredExtras row).map Prod.fst).contains a)

/-- The extras dict after the missing required attributes were defaulted to 0
(`row[attr_name] = 0`); this is also the value stored as `self.extra_attrs`. -/
def extrasWithDefaults (sh : Shape) (row : Row) : AttrMap :=
  filteredExtras row ++ (missingAttrsOf sh row).map (fun a => (a, (0 : ℚ)))

/-- The issues recorded by steps 1-2 of `BaseElement.__init__`, in the order
the source appends them: missing system, missing position, missing/zero
quantity, wrong unit, then the missing-required-extras entry. -/
def commonIssues (sh : Shape) (row : Row) : List Issue :=
  let issues1 : List Issue :=
    if row.system == "" then [Issue.msg "chybí systém"] else []
  let issues2 :=
    if row.position == "" then issues1 ++ [Issue.msg "chybí pozice"] else issues1
  let issues3 := if ¬ (row.quantity > 0) then
      issues2 ++ [Issue.msg "chybějící/nulové množství"]
    else issues2
  let issues4 :=
    match UNIT sh with
    | some u =>
      if row.unit ≠ u then
        issues3 ++ [Issue.msg ("jednotka má být [" ++ u ++ "]")]
      else issues3
    | none =>
      if ["ks", "m", "m2"].contains row.unit then issues3
      else issues3 ++ [Issue.msg "špatná jednotka"]
  let missing := missingAttrsOf sh row
  if missing.isEmpty then issues4 else issues4 ++ [Issue.missingAttrs missing]

/-- The extra-attribute binding loop of step 2:
`for k, v in row.items(): if not hasattr(self, k): setattr(self, k, v)`,
run over the NaN-filtered extras with the defaulted required attributes
appended. -/
def boundAttrs (sh : Shape) (row : Row) : AttrMap :=
  (extrasWithDefaults sh row).foldl
    (fun m p => if hasattrB sh m p.1 then m else attrSet m p.1 p.2) []

/-- Steps 1-2 of `BaseElement.__init__`: common field extraction with the
placeholder defaults and their issues, the quantity and unit checks, then the
extra-attribute binding loop (`setattr` guarded by `hasattr`). -/
def commonStage (sh : Shape) (row : Row) : St :=
  { shape := sh,
    system := if row.system == "" then "SYSTÉM" else row.system,
    position := if row.position == "" then "POZICE" else row.position,
    pn := row.pn,
    name := row.name, spec := row.spec, quantity := row.quantity,
    unit := row.unit, insulation_mm := row.insulation_mm,
    attrs := boundAttrs sh row,
    issues := commonIssues sh row }

/-- State after the `try: self._parse_spec()` block: an exception from the
hook is downgraded to a `(message, exception)` issue, keeping the mutations
the hook made before raising. -/
def specStage (sh : Shape) (row : Row) : St :=
  match parseSpecHook sh (commonStage sh row) with
  | (st1, none) => st1
  | (st1, some e) =>
    { st1 with issues := st1.issues ++
        [Issue.failure "selhalo vyčtení specifikace prvku" e] }

/-- Step 3 of `__init__`: the insulation area in m² (`none` is NaN).  Only
attempted when `insulation_mm > 0`; an exception falls back to `surface_m2`
if set, else 0, recording an issue. -/
def insulStage (sh : Shape) (row : Row) : St × Option ℚ :=
  let st1 := specStage sh row
  if st1.insulation_mm > 0 then
    match calc_insulation_mm2 sh st1 with
    | Except.ok a => (st1, some (a / 1000000))
    | Except.error e =>
      ({ st1 with issues := st1.issues ++ [Issue.failure "selhal výpočet izolace" e] },
       some (getAttrD st1 "surface_m2" 0))
  else (st1, none)

/-- A fully constructed element: the final state plus the two derived values
(`none` is NaN) and the `self.extra_attrs` snapshot. -/
structure Element extends St where
  insulation_area_m2 : Option ℚ
  price : Option ℚ
  extra_attrs : AttrMap
  deriving DecidableEq, Repr

/-- `BaseElement.__init__` (dispatched on the element class): total — every
exception of the spec-parsing, insulation and price steps is caught where the
source catches it. -/
def initElement (sh : Shape) (row : Row) (pl : Pricelist) : Element :=
  let stepIns := insulStage sh row
  match calc_price sh pl stepIns.1 with
  | (st3, Except.ok p) =>
    { toSt := st3, insulation_area_m2 := stepIns.2, price := p,
      extra_attrs := extrasWithDefaults sh row }
  | (st3, Except.error e) =>
    { toSt := { st3 with issues := st3.issues ++
        [Issue.failure "selhal výpočet ceny" e] },
      insulation_area_m2 := stepIns.2, price := none,
      extra_attrs := extrasWithDefaults sh row }

/-- The factory loop: first registered class whose `can_parse` accepts the
row; a predicate's exception escapes; no match falls back to `BaseElement`. -/
def firstAccepting : List Shape → Row → Except PyErr Shape
  | [], _ => Except.ok Shape.base
  | sh :: rest, row =>
    match can_parse sh row with
    | Except.error e => Except.error e
    | Except.ok true => Except.ok sh
    | Except.ok false => firstAccepting rest row

/-- Which class `ElementFactory.create_element` picks for a row. -/
def classify (row : Row) : Except PyErr Shape :=
  firstAccepting sortedClasses row

/-- `ElementFactory.create_element`. -/
def create_element (row : Row) (pl : Pricelist) : Except PyErr Element :=
  match classify row with
  | Except.error e => Except.error e
  | Except.ok sh => Except.ok (initElement sh row pl)

lemma attrGet_set_self (m : AttrMap) (k : String) (v : ℚ) :
    attrGet (attrSet m k v) k = some v := by
  unfold attrGet attrSet
  have hnone : List.find? (fun p => p.1 == k)
      (List.filter (fun p => ! (p.1 == k)) m) = none := by
    rw [List.find?_eq_none]
    intro x hx
    rcases List.mem_filter.1 hx with ⟨_, hpx⟩
    simpa using hpx
  rw [List.find?_append, hnone]
  simp [List.find?]

lemma attrGet_set_ne (m : AttrMap) (k k' : String) (v : ℚ) (h : ¬ k' = k) :
    attrGet (attrSet m k v) k' = attrGet m k' := by
  unfold attrGet attrSet
  rw [List.find?_append]
  have hlast : List.find? (fun p => p.1 == k') [(k, v)] = none := by
    rw [List.find?_eq_none]
    intro x hx
    simp at hx
    subst hx
    simpa using fun hh => h hh.symm
  rw [hlast]
  have hfilter : List.find? (fun p => p.1 == k')
      (List.filter (fun p => ! (p.1 == k)) m) = List.find? (fun p => p.1 == k') m := by
    induction m with
    | nil => rfl
    | cons p m ih =>
      by_cases hpk : p.1 = k
      · have h1 : (! (p.1 == k)) = false := by simp [hpk]
        have h2 : (p.1 == k') = false := by
          apply beq_eq_false_iff_ne.mpr
          rw [hpk]
          exact fun hh => h hh.symm
        simp [List.filter_cons, h1, List.find?_cons, h2, ih]
      · have h1 : (! (p.1 == k)) = true := by simp [hpk]
        by_cases hpk' : p.1 = k'
        · have h2 : (p.1 == k') = true := by simp [hpk']
          simp [List.filter_cons, h1, List.find?_cons, h2]
        · have h2 : (p.1 == k') = false := by simp [hpk']
          simp [List.filter_cons, h1, List.find?_cons, h2, ih]
  rw [hfilter]
  cases List.find? (fun p => p.1 == k') m <;> simp

lemma specGet_set_self (m : List (String × ℚ)) (k : String) (v : ℚ) :
    specGet (specSet m k v) k = some v :=
  attrGet_set_self m k v

lemma specGet_set_ne (m : List (String × ℚ)) (k k' : String) (v : ℚ)
    (h : ¬ k' = k) : specGet (specSet m k v) k' = specGet m k' :=
  attrGet_set_ne m k k' v h

lemma segsFold_get (segs : List String) (m : List (String × ℚ)) (v : ℚ)
    (k : String) :
    specGet (segs.foldl (fun m' s => specSet m' s v) m) k =
      if k ∈ segs then some v else specGet m k := by
  induction segs generalizing m with
  | nil => simp
  | cons s segs ih =>
    simp only [List.foldl_cons]
    rw [ih]
    by_cases hks : k ∈ segs
    · simp [hks]
    · by_cases hk : k = s
      · subst hk
        simp [hks, specGet_set_self]
      · simp [hks, hk, specGet_set_ne m s k v hk]

lemma tokensFold_isSome (l : List (String × ℚ)) (m : List (String × ℚ))
    (k : String) :
    (specGet (l.foldl
        (fun m t => (splitComma t.1).foldl (fun m' s => specSet m' s t.2) m)
        m) k).isSome = true ↔
      (∃ t ∈ l, k ∈ splitComma t.1) ∨ (specGet m k).isSome = true := by
  induction l generalizing m with
  | nil => simp
  | cons t l ih =>
    simp only [List.foldl_cons]
    rw [ih]
    by_cases hseg : k ∈ splitComma t.1
    · simp [segsFold_get, hseg]
    · simp only [segsFold_get, hseg, if_false, List.mem_cons]
      constructor
      · rintro (⟨t', ht', hk⟩ | h)
        · exact Or.inl ⟨t', Or.inr ht', hk⟩
        · exact Or.inr h
      · rintro (⟨t', ht', hk⟩ | h)
        · rcases ht' with rfl | ht'
          · exact absurd hk hseg
          · exact Or.inl ⟨t', ht', hk⟩
        · exact Or.inr h

lemma tokensFold_value (l : List (String × ℚ)) (m : List (String × ℚ))
    (k : String) (v : ℚ) :
    specGet (l.foldl
        (fun m t => (splitComma t.1).foldl (fun m' s => specSet m' s t.2) m)
        m) k = some v →
      (∃ t ∈ l, k ∈ splitComma t.1 ∧ t.2 = v) ∨ specGet m k = some v := by
  induction l generalizing m with
  | nil => simp
  | cons t l ih =>
    simp only [List.foldl_cons]
    intro h
    rcases ih _ h with ⟨t', ht', hk, hv⟩ | hbase
    · exact Or.inl ⟨t', List.mem_cons_of_mem _ ht', hk, hv⟩
    · rw [segsFold_get] at hbase
      by_cases hseg : k ∈ splitComma t.1
      · rw [if_pos hseg] at hbase
        exact Or.inl ⟨t, List.mem_cons_self _ _, hseg, Option.some_inj.1 hbase⟩
      · rw [if_neg hseg] at hbase
        exact Or.inr hbase

/-- Claim C7: for every specification string, `parse_spec_str` returns a
mapping that binds exactly the individual comma segments of the keys of the
`KEY=NUMBER` tokens found in the string, each to its token's numeric value
(comma-joined keys as in `A,B=500` share the value, and a trailing degree
marker is not part of the value); malformed tokens are skipped without
error, and a string with no matching token yields the empty mapping. -/
theorem parse_spec_str_contract :
    (∀ s : String, specTokens s = [] → parse_spec_str s = []) ∧
    (∀ s k : String,
      (specGet (parse_spec_str s) k).isSome = true ↔
        ∃ t ∈ specTokens s, k ∈ splitComma t.1) ∧
    (∀ (s k : String) (v : ℚ),
      specGet (parse_spec_str s) k = some v →
        ∃ t ∈ specTokens s, k ∈ splitComma t.1 ∧ t.2 = v) ∧
    (specGet (parse_spec_str "A,B=500, R=200, a=90") "A" = some 500 ∧
      specGet (parse_spec_str "A,B=500, R=200, a=90") "B" = some 500 ∧
      specGet (parse_spec_str "A,B=500, R=200, a=90") "R" = some 200 ∧
      specGet (parse_spec_str "A,B=500, R=200, a=90") "a" = some 90) ∧
    (specGet (parse_spec_str "R=200, a=90°") "a" = some 90) ∧
    (specGet (parse_spec_str "foo=bar, R=200") "R" = some 200 ∧
      specGet (parse_spec_str "foo=bar, R=200") "foo" = none) ∧
    parse_spec_str "hello world" = [] := by
  refine ⟨?_, ?_, ?_, by decide, by decide, by decide, by decide⟩
  · intro s h
    unfold parse_spec_str
    rw [h]
    rfl
  · intro s k
    unfold parse_spec_str
    rw [tokensFold_isSome]
    simp [specGet]
  · intro s k v h
    unfold parse_spec_str at h
    rcases tokensFold_value _ _ _ _ h with hgood | hbad
    · exact hgood
    · simp [specGet] at hbad

/-- Witness for C7 at concrete inputs. -/
theorem parse_spec_str_contract_witness :
    (specGet (parse_spec_str "R=200") "R").isSome = true ∧
      parse_spec_str "bez tokenu" = [] :=
  ⟨(parse_spec_str_contract.2.1 "R=200" "R").mpr
      ⟨("R", 200), by decide, by decide⟩,
    parse_spec_str_contract.1 "bez tokenu" (by decide)⟩

/-- Scenario A row (§8): a straight round tube with diameter 200 mm,
30 mm insulation, 5 m and 1 m² of surface. -/
def rowScenarioA : Row :=
  { system := "VZT1", position := "1", pn := "P1", name := "Roura",
    spec := "D=200", quantity := 5, unit := "m", insulation_mm := 30,
    extras := [("diameter_mm", some 200), ("surface_m2", some 1)] }

/-- Claim C5: the scenario-A round tube gets
`insulation_area_m2 = pi * (200 + 2*30) * (1000*5) / 1e6` (about 4.084) and
`price = 1.0 * pipe_metal_m2` for every pricelist. -/
theorem scenarioA_roundTube (pl : Pricelist) :
    ∃ (e : Element) (v : ℚ),
      create_element rowScenarioA pl = Except.ok e ∧
      e.shape = Shape.roundTube ∧
      e.insulation_area_m2 = some v ∧
      v = npPi * (200 + 2 * 30) * (1000 * 5) / 1000000 ∧
      4083 / 1000 < v ∧ v < 4085 / 1000 ∧
      e.price = some (1 * pl.pipe_metal_m2) := by
  refine ⟨initElement Shape.roundTube rowScenarioA pl,
    npPi * (200 + 2 * 30) * (1000 * 5) / 1000000,
    rfl, rfl, rfl, rfl, by norm_num [npPi], by norm_num [npPi], rfl⟩

/-- Scenario B row (§8): a flat duct of 300×200 mm, 2000 mm long, 4 pieces,
2 m² of surface, no insulation. -/
def rowScenarioB : Row :=
  { system := "VZT1", position := "2", pn := "P2", name := "Potrubí",
    spec := "300 x 200", quantity := 2, unit := "m", insulation_mm := 0,
    extras := [("width_mm", some 300), ("height_mm", some 200),
               ("length_mm", some 2000), ("duct_count", some 4),
               ("surface_m2", some 2)] }

/-- Claim C6: the scenario-B flat duct gets quantity overridden to the duct
count 4, unit `ks`, the length embedded into the spec text, an undefined
(NaN) insulation area, and `price = 2.0 * sheet_metal_m2 + 2*4*flange` for
every pricelist. -/
theorem scenarioB_flatTube (pl : Pricelist) :
    ∃ e : Element,
      create_element rowScenarioB pl = Except.ok e ∧
      e.shape = Shape.flatTube ∧
      e.quantity = 4 ∧
      e.unit = "ks" ∧
      e.spec = "300 x 200 x 2000" ∧
      e.insulation_area_m2 = none ∧
      e.price = some (2 * pl.sheet_metal_m2 + 2 * 4 * pl.flange) :=
  ⟨initElement Shape.flatTube rowScenarioB pl, rfl, rfl, rfl, rfl, rfl, rfl, rfl⟩

/-- A damped flat duct row (name `Tlumič hluku, buňkový`). -/
def rowDampedFlat : Row :=
  { system := "VZT1", position := "3", pn := "P3",
    name := "Tlumič hluku, buňkový", spec := "THP 10-1", quantity := 1,
    unit := "ks", insulation_mm := 0,
    extras := [("width_mm", some 300), ("height_mm", some 200),
               ("length_mm", some 1000), ("duct_count", some 2),
               ("surface_m2", some (3 / 2))] }

/-- A pricelist whose element lookup succeeds with rate 10 per piece, to
exhibit what the generic lookup formula would have produced. -/
def lookupPricelist : Pricelist :=
  { concretePricelist with lookup := fun _ => some (10, "ks") }

/-- Claim C4 (code bug in the source): `DampedFlatTube._calculate_price`
evaluates `BaseElement._calculate_price(pricelist)`, an unbound call that
raises `TypeError`, so the constructed element's price is NaN with a
price-failure issue — whereas the generic pricelist-lookup formula on the
same state (what the spec describes) returns `unit_price * quantity`. -/
theorem dampedFlatTube_price_typeError :
    ∃ e : Element,
      create_element rowDampedFlat lookupPricelist = Except.ok e ∧
      e.shape = Shape.dampedFlatTube ∧
      e.price = none ∧
      Issue.failure "selhal výpočet ceny" PyErr.typeError ∈ e.issues ∧
      calc_price Shape.dampedFlatTube lookupPricelist
          (insulStage Shape.dampedFlatTube rowDampedFlat).1 =
        ((insulStage Shape.dampedFlatTube rowDampedFlat).1,
          Except.error PyErr.typeError) ∧
      defaultPrice lookupPricelist
          (insulStage Shape.dampedFlatTube rowDampedFlat).1 =
        ((insulStage Shape.dampedFlatTube rowDampedFlat).1,
          Except.ok (some (10 * 2))) :=
  ⟨initElement Shape.dampedFlatTube rowDampedFlat lookupPricelist,
    rfl, rfl, rfl, by decide, rfl, rfl⟩

/-- The sorted dispatch order of `ElementFactory._sorted_classes`: the two
`FlatTube` refinements first (registration order among themselves), then the
direct subclasses in registration order. -/
lemma sortedClasses_eq :
    sortedClasses = [Shape.floorFlatTube, Shape.dampedFlatTube,
      Shape.roundTube, Shape.dampedRoundTube, Shape.roundTubeJoint,
      Shape.flatTube, Shape.roundElbow, Shape.flatElbow, Shape.flatReduction,
      Shape.roundReduction, Shape.flatRoundReduction, Shape.roundTee] := by
  decide

lemma firstAccepting_total (l : List Shape) (row : Row)
    (h : ∀ sh ∈ l, ∃ b, can_parse sh row = Except.ok b) :
    ∃ s, firstAccepting l row = Except.ok s := by
  induction l with
  | nil => exact ⟨Shape.base, rfl⟩
  | cons a l ih =>
    obtain ⟨b, hb⟩ := h a (List.mem_cons_self a l)
    cases b
    · obtain ⟨s, hs⟩ := ih (fun sh hsh => h sh (List.mem_cons_of_mem a hsh))
      exact ⟨s, by simp [firstAccepting, hb, hs]⟩
    · exact ⟨a, by simp [firstAccepting, hb]⟩

/-- A `Potrubí` row carrying no `width_mm`/`height_mm` columns at all. -/
def rowDimlessPotrubi : Row :=
  { system := "s", position := "p", pn := "x", name := "Potrubí",
    spec := "", quantity := 1, unit := "m", insulation_mm := 0, extras := [] }

/-- Counterexample to C1 as stated: a row that satisfies the §6 contract as
the claim words it (mandatory fields present and typed; every present extra a
number or NaN) but carries no `width_mm` key, on which
`FloorFlatTube.can_parse`'s raw `row['width_mm']` lookup raises a `KeyError`
that escapes `ElementFactory.create_element`. -/
theorem create_element_keyError_counterexample :
    rowDimlessPotrubi.WF ∧
      create_element rowDimlessPotrubi concretePricelist =
        Except.error PyErr.keyError :=
  ⟨by decide, rfl⟩

/-- Claim C1 (amended): for every contract row that, when named `Potrubí`,
also carries `width_mm` and `height_mm` fields, and every pricelist,
`create_element` returns an element and raises nothing; all spec-parsing,
insulation and price failures are caught inside construction. -/
theorem create_element_total (row : Row) (pl : Pricelist)
    (hrow : row.name = "Potrubí" →
      (∃ w, rowGet row "width_mm" = Except.ok w) ∧
      (∃ h, rowGet row "height_mm" = Except.ok h)) :
    ∃ e, create_element row pl = Except.ok e := by
  have hall : ∀ x ∈ sortedClasses, ∃ b, can_parse x row = Except.ok b := by
    intro x _
    cases x
    case floorFlatTube =>
      by_cases hname : row.name = "Potrubí"
      · obtain ⟨⟨w, hw⟩, ⟨h2, hh⟩⟩ := hrow hname
        refine ⟨dimPairIn w h2, ?_⟩
        simp only [can_parse, hname, hw, hh, if_pos, beq_self_eq_true, if_true]
        rfl
      · refine ⟨false, ?_⟩
        have hne : (row.name == "Potrubí") = false := beq_eq_false_iff_ne.mpr hname
        simp [can_parse, hne]
    all_goals exact ⟨_, rfl⟩
  obtain ⟨sh, hsh⟩ := firstAccepting_total sortedClasses row hall
  refine ⟨initElement sh row pl, ?_⟩
  unfold create_element classify
  rw [hsh]

/-- Witness for the amended C1 at a concrete row and pricelist. -/
theorem create_element_total_witness :
    ∃ e, create_element rowScenarioA concretePricelist = Except.ok e :=
  create_element_total rowScenarioA concretePricelist
    (fun h => absurd h (by decide))

lemma parseSpecHook_shape (sh : Shape) (st : St) :
    ((parseSpecHook sh st).1).shape = st.shape := by
  cases sh <;>
    simp only [parseSpecHook, flatTubeHook, dampedRoundTubeHook, elbowHook,
      flatReductionHook, roundReductionHook, roundTeeHook] <;>
    (repeat' split) <;> rfl

lemma parseSpecHook_insul (sh : Shape) (st : St) :
    ((parseSpecHook sh st).1).insulation_mm = st.insulation_mm := by
  cases sh <;>
    simp only [parseSpecHook, flatTubeHook, dampedRoundTubeHook, elbowHook,
      flatReductionHook, roundReductionHook, roundTeeHook] <;>
    (repeat' split) <;> rfl

lemma specStage_shape (sh : Shape) (row : Row) :
    (specStage sh row).shape = sh := by
  have h1 : ((parseSpecHook sh (commonStage sh row)).1).shape = sh :=
    parseSpecHook_shape sh (commonStage sh row)
  unfold specStage
  rcases hp : parseSpecHook sh (commonStage sh row) with ⟨st1, oe⟩
  rw [hp] at h1
  cases oe
  · simpa using h1
  · simpa using h1

lemma specStage_insul (sh : Shape) (row : Row) :
    (specStage sh row).insulation_mm = row.insulation_mm := by
  have h1 : ((parseSpecHook sh (commonStage sh row)).1).insulation_mm =
      row.insulation_mm :=
    parseSpecHook_insul sh (commonStage sh row)
  unfold specStage
  rcases hp : parseSpecHook sh (commonStage sh row) with ⟨st1, oe⟩
  rw [hp] at h1
  cases oe
  · simpa using h1
  · simpa using h1

/-- The insulation step only appends issues to the state. -/
lemma insulStage_st (sh : Shape) (row : Row) :
    ∃ isn, (insulStage sh row).1 = { specStage sh row with issues := isn } := by
  unfold insulStage
  dsimp only
  split
  · split
    · exact ⟨(specStage sh row).issues, rfl⟩
    · exact ⟨_, rfl⟩
  · exact ⟨(specStage sh row).issues, rfl⟩

/-- The price step only appends issues to the state. -/
lemma calc_price_st (sh : Shape) (pl : Pricelist) (st : St) :
    ∃ isn, (calc_price sh pl st).1 = { st with issues := isn } := by
  cases sh <;>
    simp only [calc_price, defaultPrice] <;>
    (repeat' split) <;> exact ⟨_, rfl⟩

/-- The element's derived insulation area is exactly the insulation step's
output. -/
lemma initElement_area (sh : Shape) (row : Row) (pl : Pricelist) :
    (initElement sh row pl).insulation_area_m2 = (insulStage sh row).2 := by
  unfold initElement
  dsimp only
  rcases hcp : calc_price sh pl (insulStage sh row).1 with ⟨st3, res⟩
  cases res <;> rfl

lemma initElement_insul (sh : Shape) (row : Row) (pl : Pricelist) :
    (initElement sh row pl).insulation_mm = row.insulation_mm := by
  obtain ⟨is1, h1⟩ := insulStage_st sh row
  obtain ⟨is2, h2⟩ := calc_price_st sh pl (insulStage sh row).1
  have hmid : ((calc_price sh pl (insulStage sh row).1).1).insulation_mm =
      row.insulation_mm := by
    rw [h2, h1]
    exact specStage_insul sh row
  unfold initElement
  dsimp only
  rcases hcp : calc_price sh pl (insulStage sh row).1 with ⟨st3, res⟩
  rw [hcp] at hmid
  cases res <;> simpa using hmid

lemma initElement_shape (sh : Shape) (row : Row) (pl : Pricelist) :
    (initElement sh row pl).shape = sh := by
  obtain ⟨is1, h1⟩ := insulStage_st sh row
  obtain ⟨is2, h2⟩ := calc_price_st sh pl (insulStage sh row).1
  have hmid : ((calc_price sh pl (insulStage sh row).1).1).shape = sh := by
    rw [h2, h1]
    exact specStage_shape sh row
  unfold initElement
  dsimp only
  rcases hcp : calc_price sh pl (insulStage sh row).1 with ⟨st3, res⟩
  rw [hcp] at hmid
  cases res <;> simpa using hmid

/-- Claim C2: for every constructed element, `insulation_area_m2` is NaN when
`insulation_mm` is 0, and a defined (non-NaN) value when
`insulation_mm > 0`: the shape formula's mm² output divided by 1e6 when the
formula evaluates without error, else the fallback
`getattr(self, "surface_m2", 0)`. -/
theorem insulation_area_defined (row : Row) (pl : Pricelist) (sh : Shape)
    (e : Element) (hcls : classify row = Except.ok sh)
    (hok : create_element row pl = Except.ok e) :
    (e.insulation_mm = 0 → e.insulation_area_m2 = none) ∧
    (0 < e.insulation_mm →
      (∃ v, e.insulation_area_m2 = some v) ∧
      (∀ a, calc_insulation_mm2 sh (specStage sh row) = Except.ok a →
        e.insulation_area_m2 = some (a / 1000000)) ∧
      (∀ err, calc_insulation_mm2 sh (specStage sh row) = Except.error err →
        e.insulation_area_m2 = some (getAttrD (specStage sh row) "surface_m2" 0))) := by
  have he : e = initElement sh row pl := by
    unfold create_element at hok
    rw [hcls] at hok
    exact (Except.ok.inj hok).symm
  subst he
  rw [initElement_area, initElement_insul]
  unfold insulStage
  dsimp only
  rw [specStage_insul]
  constructor
  · intro h0
    rw [h0]
    norm_num
  · intro hpos
    rw [if_pos hpos]
    refine ⟨?_, ?_, ?_⟩
    · rcases hci : calc_insulation_mm2 sh (specStage sh row) with err | a
      · exact ⟨_, rfl⟩
      · exact ⟨_, rfl⟩
    · intro a hci
      rw [hci]
    · intro err hci
      rw [hci]

/-- Witness for C2 at the scenario-A row: its insulation is 30 mm, so the
area is defined. -/
theorem insulation_area_defined_witness :
    ∃ v, (initElement Shape.roundTube rowScenarioA
      concretePricelist).insulation_area_m2 = some v :=
  ((insulation_area_defined rowScenarioA concretePricelist Shape.roundTube
    (initElement Shape.roundTube rowScenarioA concretePricelist) rfl rfl).2
    (by decide)).1

lemma firstAccepting_all_false (l : List Shape) (row : Row)
    (h : ∀ x ∈ l, can_parse x row = Except.ok false) :
    firstAccepting l row = Except.ok Shape.base := by
  induction l with
  | nil => rfl
  | cons a l ih =>
    have ha := h a (List.mem_cons_self a l)
    simp [firstAccepting, ha,
      ih (fun x hx => h x (List.mem_cons_of_mem a hx))]

lemma firstAccepting_first (l : List Shape) (row : Row) (sh : Shape)
    (h : firstAccepting l row = Except.ok sh) :
    (sh = Shape.base ∧ ∀ x ∈ l, can_parse x row = Except.ok false) ∨
    (∃ l₁ l₂, l = l₁ ++ sh :: l₂ ∧ can_parse sh row = Except.ok true ∧
      ∀ x ∈ l₁, can_parse x row = Except.ok false) := by
  induction l with
  | nil =>
    left
    refine ⟨(Except.ok.inj h).symm, ?_⟩
    intro x hx
    exact absurd hx (List.not_mem_nil x)
  | cons a l ih =>
    simp only [firstAccepting] at h
    rcases hc : can_parse a row with e | b
    · rw [hc] at h
      exact absurd h (by simp)
    · rw [hc] at h
      cases b
      · rcases ih h with ⟨hbase, hall⟩ | ⟨l₁, l₂, hsplit, hT, hF⟩
        · left
          refine ⟨hbase, ?_⟩
          intro x hx
          rcases List.mem_cons.1 hx with rfl | hx
          · exact hc
          · exact hall x hx
        · right
          refine ⟨a :: l₁, l₂, ?_, hT, ?_⟩
          · rw [hsplit, List.cons_append]
          · intro x hx
            rcases List.mem_cons.1 hx with rfl | hx
            · exact hc
            · exact hF x hx
      · right
        have ha : a = sh := Except.ok.inj h
        subst ha
        refine ⟨[], l, rfl, hc, ?_⟩
        intro x hx
        exact absurd hx (List.not_mem_nil x)

/-- Claim C3: dispatch order is most-specific-first (the two `FlatTube`
refinements precede everything, in particular `FlatTube` itself);
classification picks the first accepting rule; a `Potrubí` row with
dimensions (160, 40) or (200, 50) goes to `FloorFlatTube`, not `FlatTube`;
and a row no predicate accepts falls back to `BaseElement`. -/
theorem classification_first_match :
    sortedClasses = [Shape.floorFlatTube, Shape.dampedFlatTube,
      Shape.roundTube, Shape.dampedRoundTube, Shape.roundTubeJoint,
      Shape.flatTube, Shape.roundElbow, Shape.flatElbow, Shape.flatReduction,
      Shape.roundReduction, Shape.flatRoundReduction, Shape.roundTee] ∧
    (∀ (row : Row) (sh : Shape), classify row = Except.ok sh →
      (sh = Shape.base ∧ ∀ x ∈ sortedClasses, can_parse x row = Except.ok false) ∨
      (∃ l₁ l₂, sortedClasses = l₁ ++ sh :: l₂ ∧
        can_parse sh row = Except.ok true ∧
        ∀ x ∈ l₁, can_parse x row = Except.ok false)) ∧
    (∀ row : Row, row.name = "Potrubí" →
      ((rowGet row "width_mm" = Except.ok (some 160) ∧
        rowGet row "height_mm" = Except.ok (some 40)) ∨
       (rowGet row "width_mm" = Except.ok (some 200) ∧
        rowGet row "height_mm" = Except.ok (some 50))) →
      classify row = Except.ok Shape.floorFlatTube) ∧
    (∀ row : Row, (∀ x ∈ sortedClasses, can_parse x row = Except.ok false) →
      classify row = Except.ok Shape.base) := by
  refine ⟨sortedClasses_eq, ?_, ?_, ?_⟩
  · intro row sh h
    exact firstAccepting_first sortedClasses row sh h
  · intro row hname hd
    have hfloor : can_parse Shape.floorFlatTube row = Except.ok true := by
      rcases hd with ⟨hw, hh⟩ | ⟨hw, hh⟩ <;>
        · simp only [can_parse, hname, beq_self_eq_true, if_true, hw, hh]
          rfl
    unfold classify
    rw [sortedClasses_eq]
    simp [firstAccepting, hfloor]
  · intro row h
    exact firstAccepting_all_false sortedClasses row h

/-- A floor flat duct row: `Potrubí` at 160×40 mm. -/
def rowFloor : Row :=
  { system := "VZT1", position := "4", pn := "P4", name := "Potrubí",
    spec := "160 x 40", quantity := 3, unit := "m", insulation_mm := 0,
    extras := [("width_mm", some 160), ("height_mm", some 40),
               ("surface_m2", some 1)] }

/-- Witness for C3: the concrete 160×40 `Potrubí` row classifies as the floor
flat duct. -/
theorem classification_first_match_witness :
    classify rowFloor = Except.ok Shape.floorFlatTube :=
  classification_first_match.2.2.1 rowFloor rfl (Or.inl ⟨rfl, rfl⟩)

/-- A row with an empty name (and otherwise unremarkable content). -/
def rowEmptyName : Row :=
  { system := "VZT1", position := "5", pn := "P5", name := "",
    spec := "", quantity := 1, unit := "ks", insulation_mm := 0,
    extras := [("diameter_mm", some 100), ("surface_m2", some 1)] }

/-- Claim C9: `RoundTubeJoint.can_parse` is the Python substring test
`row['name'] in 'Vsuvka do potrubí'`, and no earlier rule in the dispatch
order accepts any such substring, so every row whose name is a contiguous
substring of that string — the empty string included — classifies as the
round tube joint. -/
theorem substring_name_roundTubeJoint :
    (∀ row : Row, pyStrIn row.name "Vsuvka do potrubí" = true →
      classify row = Except.ok Shape.roundTubeJoint) ∧
    classify rowEmptyName = Except.ok Shape.roundTubeJoint := by
  constructor
  · intro row hsub
    have h1 : (row.name == "Potrubí") = false := by
      refine beq_eq_false_iff_ne.mpr ?_
      intro h
      rw [h] at hsub
      exact absurd hsub (by decide)
    have h2 : (row.name == "Tlumič hluku, buňkový") = false := by
      refine beq_eq_false_iff_ne.mpr ?_
      intro h
      rw [h] at hsub
      exact absurd hsub (by decide)
    have h3 : (row.name == "Roura") = false := by
      refine beq_eq_false_iff_ne.mpr ?_
      intro h
      rw [h] at hsub
      exact absurd hsub (by decide)
    have h4 : (row.name == "Tlumič hluku, kulatý") = false := by
      refine beq_eq_false_iff_ne.mpr ?_
      intro h
      rw [h] at hsub
      exact absurd hsub (by decide)
    unfold classify
    rw [sortedClasses_eq]
    simp [firstAccepting, can_parse, h1, h2, h3, h4, hsub]
  · rfl

/-- Witness for C9: the empty-name row, through the main statement. -/
theorem substring_name_roundTubeJoint_witness :
    classify rowEmptyName = Except.ok Shape.roundTubeJoint :=
  substring_name_roundTubeJoint.1 rowEmptyName (by decide)

/-- A row no registered predicate accepts. -/
def rowUnknown : Row :=
  { system := "VZT1", position := "6", pn := "P6", name := "Ventil",
    spec := "", quantity := 2, unit := "ks", insulation_mm := 0,
    extras := [] }

/-- Claim C10: the concrete `Pricelist.__getitem__` raises `KeyError` for
every key; consequently the default lookup-based price formula returns NaN
with no issue appended, and every element priced through it (`BaseElement`
fallback and `DampedRoundTube`, which does not override `_calculate_price`)
ends with a NaN price and an issues list untouched by the price step. -/
theorem concrete_lookup_price_nan :
    (∀ st : St, concretePricelist.lookup st = none) ∧
    (∀ (pl : Pricelist) (st : St), pl.lookup st = none →
      defaultPrice pl st = (st, Except.ok none)) ∧
    (∀ (row : Row) (sh : Shape) (e : Element),
      classify row = Except.ok sh →
      (sh = Shape.base ∨ sh = Shape.dampedRoundTube) →
      create_element row concretePricelist = Except.ok e →
      e.price = none ∧ e.issues = ((insulStage sh row).1).issues) := by
  refine ⟨fun _ => rfl, ?_, ?_⟩
  · intro pl st h
    unfold defaultPrice
    rw [h]
  · intro row sh e hcls hsh hok
    have he : e = initElement sh row concretePricelist := by
      unfold create_element at hok
      rw [hcls] at hok
      exact (Except.ok.inj hok).symm
    subst he
    have hcp : calc_price sh concretePricelist (insulStage sh row).1 =
        ((insulStage sh row).1, Except.ok none) := by
      rcases hsh with rfl | rfl <;> rfl
    unfold initElement
    dsimp only
    rw [hcp]
    exact ⟨rfl, rfl⟩

/-- Witness for C10: a fallback `BaseElement` row priced by the default
formula against the concrete pricelist. -/
theorem concrete_lookup_price_nan_witness :
    (initElement Shape.base rowUnknown concretePricelist).price = none :=
  (concrete_lookup_price_nan.2.2 rowUnknown Shape.base
    (initElement Shape.base rowUnknown concretePricelist) rfl (Or.inl rfl)
    rfl).1

lemma hasattrB_false (sh : Shape) (m : AttrMap) (k : String)
    (hstat : (commonAttrNames.contains k || classAttrNames.contains k ||
      hasPropName sh k) = false)
    (hnone : attrGet m k = none) : hasattrB sh m k = false := by
  unfold hasattrB
  simp only [Bool.or_eq_false_iff] at hstat ⊢
  exact ⟨hstat, by rw [hnone]; rfl⟩

lemma bindFold_mono (sh : Shape) (l : AttrMap) (m : AttrMap) (k : String)
    (h : (attrGet m k).isSome = true) :
    (attrGet (l.foldl
      (fun m p => if hasattrB sh m p.1 then m else attrSet m p.1 p.2) m)
      k).isSome = true := by
  induction l generalizing m with
  | nil => exact h
  | cons p l ih =>
    simp only [List.foldl_cons]
    apply ih
    by_cases hg : hasattrB sh m p.1
    · rwa [if_pos hg]
    · rw [if_neg hg]
      by_cases hk : p.1 = k
      · subst hk
        rw [attrGet_set_self]
        rfl
      · rw [attrGet_set_ne m p.1 k p.2 (fun hh => hk hh.symm)]
        exact h

lemma bindFold_value (sh : Shape) (l : AttrMap) (m : AttrMap) (k : String)
    (v : ℚ) (h : attrGet m k = some v) :
    attrGet (l.foldl
      (fun m p => if hasattrB sh m p.1 then m else attrSet m p.1 p.2) m)
      k = some v := by
  induction l generalizing m with
  | nil => exact h
  | cons p l ih =>
    simp only [List.foldl_cons]
    apply ih
    by_cases hg : hasattrB sh m p.1
    · rwa [if_pos hg]
    · rw [if_neg hg]
      by_cases hk : p.1 = k
      · exfalso
        apply hg
        unfold hasattrB
        subst hk
        rw [h]
        simp
      · rw [attrGet_set_ne m p.1 k p.2 (fun hh => hk hh.symm)]
        exact h

lemma bindFold_not_mem (sh : Shape) (l : AttrMap) (m : AttrMap) (k : String)
    (hk : ∀ p ∈ l, ¬ p.1 = k) :
    attrGet (l.foldl
      (fun m p => if hasattrB sh m p.1 then m else attrSet m p.1 p.2) m)
      k = attrGet m k := by
  induction l generalizing m with
  | nil => rfl
  | cons p l ih =>
    simp only [List.foldl_cons]
    rw [ih _ (fun q hq => hk q (List.mem_cons_of_mem p hq))]
    by_cases hg : hasattrB sh m p.1
    · rw [if_pos hg]
    · rw [if_neg hg]
      exact attrGet_set_ne m p.1 k p.2
        (fun hh => hk p (List.mem_cons_self p l) hh.symm)

lemma bindFold_sets (sh : Shape) (l : AttrMap) (m : AttrMap) (k : String)
    (v : ℚ)
    (hstat : (commonAttrNames.contains k || classAttrNames.contains k ||
      hasPropName sh k) = false)
    (hmem : (k, v) ∈ l) :
    (attrGet (l.foldl
      (fun m p => if hasattrB sh m p.1 then m else attrSet m p.1 p.2) m)
      k).isSome = true := by
  induction l generalizing m with
  | nil => exact absurd hmem (List.not_mem_nil _)
  | cons p l ih =>
    simp only [List.foldl_cons]
    rcases List.mem_cons.1 hmem with heq | hmem'
    · subst heq
      by_cases hg : hasattrB sh m k
      · rw [if_pos hg]
        apply bindFold_mono
        unfold hasattrB at hg
        rw [hstat] at hg
        simpa using hg
      · rw [if_neg hg]
        apply bindFold_mono
        rw [attrGet_set_self]
        rfl
    · exact ih _ hmem'

lemma bindFold_unique (sh : Shape) (l₁ l₂ : AttrMap) (m : AttrMap)
    (k : String) (v : ℚ)
    (hstat : (commonAttrNames.contains k || classAttrNames.contains k ||
      hasPropName sh k) = false)
    (h1 : ∀ p ∈ l₁, ¬ p.1 = k) (hminit : attrGet m k = none) :
    attrGet ((l₁ ++ (k, v) :: l₂).foldl
      (fun m p => if hasattrB sh m p.1 then m else attrSet m p.1 p.2) m)
      k = some v := by
  rw [List.foldl_append]
  have hmid : attrGet (l₁.foldl
      (fun m p => if hasattrB sh m p.1 then m else attrSet m p.1 p.2) m)
      k = none := by
    rw [bindFold_not_mem sh l₁ m k h1]
    exact hminit
  simp only [List.foldl_cons]
  apply bindFold_value
  have hg := hasattrB_false sh _ k hstat hmid
  have hg' : ¬ (hasattrB sh (l₁.foldl
      (fun m p => if hasattrB sh m p.1 then m else attrSet m p.1 p.2) m) k
      = true) := by
    rw [hg]
    simp
  rw [if_neg hg']
  exact attrGet_set_self _ k v

/-- No declared required extra attribute collides with a step-1 instance
attribute, a class-level name, or a property descriptor. -/
lemma extra_not_static (sh : Shape) :
    ∀ a ∈ EXTRA_ATTRS sh,
      (commonAttrNames.contains a || classAttrNames.contains a ||
        hasPropName sh a) = false := by
  cases sh <;> decide

lemma extraAttrs_nodup (sh : Shape) : (EXTRA_ATTRS sh).Nodup := by
  cases sh <;> decide

/-- With nodup keys, two members of an association list sharing a key
coincide. -/
lemma assoc_unique {α : Type} (l : List (String × α))
    (hnd : (l.map Prod.fst).Nodup) (x y : String × α) (hx : x ∈ l)
    (hy : y ∈ l) (hk : x.1 = y.1) : x = y := by
  induction l with
  | nil => exact absurd hx (List.not_mem_nil x)
  | cons a l ih =>
    rw [List.map_cons, List.nodup_cons] at hnd
    rcases List.mem_cons.1 hx with rfl | hx' <;>
      rcases List.mem_cons.1 hy with rfl | hy'
    · rfl
    · exfalso
      exact hnd.1 (hk ▸ (List.mem_map_of_mem Prod.fst hy'))
    · exfalso
      exact hnd.1 (hk ▸ (List.mem_map_of_mem Prod.fst hx'))
    · exact ih hnd.2 hx' hy'

lemma filtered_mem_row (row : Row) (p : String × ℚ)
    (hp : p ∈ filteredExtras row) : (p.1, some p.2) ∈ row.extras := by
  unfold filteredExtras at hp
  rcases List.mem_filterMap.1 hp with ⟨q, hq, hfq⟩
  rcases q with ⟨qk, qv⟩
  cases qv with
  | none => simp at hfq
  | some v =>
    have hpv : (qk, v) = p := by simpa using hfq
    rw [← hpv]
    exact hq

lemma absent_filtered (row : Row) (k : String) (hWF : row.WF)
    (h : rowGet row k = Except.error PyErr.keyError ∨
      rowGet row k = Except.ok none) :
    ∀ p ∈ filteredExtras row, ¬ p.1 = k := by
  intro p hp hpk
  have hmem : (p.1, some p.2) ∈ row.extras := filtered_mem_row row p hp
  unfold rowGet at h
  rcases hfind : row.extras.find? (fun q => q.1 == k) with _ | q
  · have := List.find?_eq_none.1 hfind (p.1, some p.2) hmem
    rw [hpk] at this
    simp at this
  · rw [hfind] at h
    have hq1 : q.1 = k := by
      have := List.find?_some hfind
      simpa using this
    have hqmem : q ∈ row.extras := List.mem_of_find?_eq_some hfind
    have hequal : q = (p.1, some p.2) :=
      assoc_unique row.extras hWF.1 q (p.1, some p.2) hqmem hmem
        (by rw [hq1, hpk])
    rcases h with h | h
    · simp at h
    · rw [hequal] at h
      simp at h

lemma mem_missing (sh : Shape) (row : Row) (a : String)
    (ha : a ∈ EXTRA_ATTRS sh)
    (habs : ∀ p ∈ filteredExtras row, ¬ p.1 = a) :
    a ∈ missingAttrsOf sh row := by
  unfold missingAttrsOf
  refine List.mem_filter.2 ⟨ha, ?_⟩
  have hnm : ¬ a ∈ List.map Prod.fst (filteredExtras row) := by
    intro hmem
    rcases List.mem_map.1 hmem with ⟨p, hp, hpk⟩
    exact habs p hp hpk
  simpa using hnm

lemma getAttrE_no_prop (st : St) (k : String)
    (hprop : hasPropName st.shape k = false) :
    getAttrE st k =
      match attrGet st.attrs k with
      | some v => Except.ok v
      | none => Except.error PyErr.attributeError := by
  unfold getAttrE propValue
  rw [hprop]
  simp

/-- Claim C8 (amended): right after the extra-attribute binding step of
construction, every declared required extra attribute is readable; one that
was absent from the row (or present only as the NaN marker) reads as 0 and
the missing-attributes issue names it.  (The spec-parsing hook may later
rename or delete such attributes, so this does not always survive to the
finished element.) -/
theorem extra_attrs_default (sh : Shape) (row : Row) (a : String)
    (hWF : row.WF) (ha : a ∈ EXTRA_ATTRS sh) :
    (∃ v, getAttrE (commonStage sh row) a = Except.ok v) ∧
    ((rowGet row a = Except.error PyErr.keyError ∨
        rowGet row a = Except.ok none) →
      getAttrE (commonStage sh row) a = Except.ok 0 ∧
      ∃ names, Issue.missingAttrs names ∈ (commonStage sh row).issues ∧
        a ∈ names) := by
  have hstat := extra_not_static sh a ha
  have hprop : hasPropName sh a = false := by
    simp only [Bool.or_eq_false_iff] at hstat
    exact hstat.2
  have hrw := getAttrE_no_prop (commonStage sh row) a hprop
  constructor
  · have hsome : (attrGet (boundAttrs sh row) a).isSome = true := by
      by_cases hmem : ∃ v, (a, v) ∈ filteredExtras row
      · obtain ⟨v, hv⟩ := hmem
        exact bindFold_sets sh (extrasWithDefaults sh row) [] a v hstat
          (List.mem_append_left _ hv)
      · have habs : ∀ p ∈ filteredExtras row, ¬ p.1 = a := by
          intro p hp hpk
          refine hmem ⟨p.2, ?_⟩
          rw [← hpk]
          exact hp
        have hmiss : a ∈ missingAttrsOf sh row := mem_missing sh row a ha habs
        refine bindFold_sets sh (extrasWithDefaults sh row) [] a 0 hstat ?_
        refine List.mem_append_right _ ?_
        exact List.mem_map.2 ⟨a, hmiss, rfl⟩
    obtain ⟨v, hv⟩ := Option.isSome_iff_exists.1 hsome
    refine ⟨v, ?_⟩
    rw [hrw]
    have : attrGet (commonStage sh row).attrs a = some v := hv
    rw [this]
  · intro habsent
    have habs := absent_filtered row a hWF habsent
    have hmiss : a ∈ missingAttrsOf sh row := mem_missing sh row a ha habs
    obtain ⟨m₁, m₂, hsplit⟩ := List.append_of_mem hmiss
    have hnd : (missingAttrsOf sh row).Nodup :=
      List.Nodup.filter _ (extraAttrs_nodup sh)
    have hnotm1 : a ∉ m₁ := by
      rw [hsplit] at hnd
      intro hin
      exact (List.nodup_append.1 hnd).2.2 hin (List.mem_cons_self a m₂)
    have hdecomp : extrasWithDefaults sh row =
        (filteredExtras row ++ m₁.map (fun b => (b, (0 : ℚ)))) ++
          (a, (0 : ℚ)) :: m₂.map (fun b => (b, (0 : ℚ))) := by
      unfold extrasWithDefaults
      rw [hsplit, List.map_append, List.map_cons, List.append_assoc]
    have h1 : ∀ p ∈ filteredExtras row ++ m₁.map (fun b => (b, (0 : ℚ))),
        ¬ p.1 = a := by
      intro p hp
      rcases List.mem_append.1 hp with hp | hp
      · exact habs p hp
      · rcases List.mem_map.1 hp with ⟨b, hb, rfl⟩
        intro hba
        exact hnotm1 (hba ▸ hb)
    have hget : attrGet (boundAttrs sh row) a = some 0 := by
      unfold boundAttrs
      rw [hdecomp]
      exact bindFold_unique sh _ _ [] a 0 hstat h1 rfl
    constructor
    · rw [hrw]
      have : attrGet (commonStage sh row).attrs a = some 0 := hget
      rw [this]
    · refine ⟨missingAttrsOf sh row, ?_, hmiss⟩
      have hne : ¬ ((missingAttrsOf sh row).isEmpty = true) := by
        rw [List.isEmpty_iff]
        intro hnil
        rw [hnil] at hmiss
        exact List.not_mem_nil a hmiss
      show Issue.missingAttrs (missingAttrsOf sh row) ∈ commonIssues sh row
      unfold commonIssues
      dsimp only
      rw [if_neg hne]
      exact List.mem_append_right _ (List.mem_singleton.2 rfl)

/-- A flat duct row that lacks the `duct_count` column entirely. -/
def rowFlatNoDuct : Row :=
  { system := "VZT1", position := "7", pn := "P7", name := "Potrubí",
    spec := "300 x 200", quantity := 2, unit := "m", insulation_mm := 0,
    extras := [("width_mm", some 300), ("height_mm", some 200),
               ("length_mm", some 2000), ("surface_m2", some 2)] }

/-- Witness for the amended C8: the missing `duct_count` of a flat duct row
reads as 0 after binding. -/
theorem extra_attrs_default_witness :
    getAttrE (commonStage Shape.flatTube rowFlatNoDuct) "duct_count" =
      Except.ok 0 :=
  ((extra_attrs_default Shape.flatTube rowFlatNoDuct "duct_count" (by decide)
    (by decide)).2 (Or.inl rfl)).1

/-- Counterexample to C8 as stated: `duct_count` is a declared required extra
attribute of `FlatTube`, yet on the finished scenario-B element it is not
readable — `FlatTube._parse_spec` moved it into `quantity` and deleted it. -/
theorem extra_attr_deleted_counterexample :
    "duct_count" ∈ EXTRA_ATTRS Shape.flatTube ∧
    rowScenarioB.WF ∧
    ∃ e, create_element rowScenarioB concretePricelist = Except.ok e ∧
      e.shape = Shape.flatTube ∧
      getAttrE e.toSt "duct_count" = Except.error PyErr.attributeError :=
  ⟨by decide, by decide,
    initElement Shape.flatTube rowScenarioB concretePricelist, rfl, rfl, rfl⟩

end PT
